import Mathlib

set_option autoImplicit false

/-! Verification of the stor crate (src/lib.rs): the Stor trait providing
abstract container types, and its four strategy markers Owned, Ref, Const
and Heapless. The development has two layers: a semantic layer modelling
each container by its observable content together with its AsRef view, and
a syntactic layer transcribing the Rust type expressions, trait bounds and
cfg feature gates appearing in the source. -/

/-- Rust Clone trait: duplicable values. -/
class Clone (α : Type) where
  clone : α → α

/-- Rust core fmt Debug trait: diagnostically printable values. -/
class Debug (α : Type) where
  fmt : α → String

instance : Clone Unit := ⟨fun u => u⟩

instance : Debug Unit := ⟨fun _ => "()"⟩

instance : Clone Nat := ⟨fun n => n⟩

instance : Debug Nat := ⟨fun n => toString n⟩

/-- core marker PhantomData: a field free marker carrying only a type, here
used for the borrow lifetime of Ref. -/
structure PhantomData (α : Type)

/-- Owned marker uses alloc backed storage: a unit struct with no fields. -/
structure Owned

/-- Ref marker uses borrowed containers: struct Ref holding a single
PhantomData field, with the Rust lifetime modelled as a type parameter lt. -/
structure Ref (lt : Type) where
  phantom : PhantomData lt

/-- Const marker uses const size containers: a unit struct parameterized by
the capacity constant N. -/
structure Const (N : Nat)

/-- Heapless marker uses heapless containers: a unit struct parameterized by
the capacity constant N. -/
structure Heapless (N : Nat)

/-- A Rust byte value (u8), modelled as a natural number. -/
abbrev Byte := Nat

/-- alloc vec Vec of T, modelled by its element sequence. -/
abbrev Vec (T : Type) := List T

/-- A Rust inline array of T of length N, modelled as a list of exactly N
elements. -/
abbrev RustArray (T : Type) (N : Nat) := {l : List T // l.length = N}

/-- heapless Vec of T with capacity N: a bounded vector of at most N
elements held in inline storage. -/
abbrev HeaplessVec (T : Type) (N : Nat) := {l : List T // l.length ≤ N}

/-- heapless String with capacity N: a bounded text buffer of at most N
utf8 bytes held in inline storage. -/
abbrev HeaplessString (N : Nat) := {s : String // s.utf8ByteSize ≤ N}

/-- The Stor trait for an element type Inner (bounded by Debug in the trait
declaration): it supplies a List type viewable as a read only slice of
Inner, a String type viewable as a read only str, and a Bytes type viewable
as a read only byte slice. The three view fields model the AsRef bounds on
the associated types. -/
structure Stor (Inner : Type) [Debug Inner] where
  ListT : Type
  StringT : Type
  BytesT : Type
  listAsRef : ListT → List Inner
  stringAsRef : StringT → String
  bytesAsRef : BytesT → List Byte

/-- The impl of Stor T for Owned, for every T with Clone and Debug: Vec of
T, alloc String, Vec of u8; each views as itself. -/
def Owned.stor (T : Type) [Clone T] [Debug T] : Stor T where
  ListT := Vec T
  StringT := String
  BytesT := Vec Byte
  listAsRef := fun l => l
  stringAsRef := fun s => s
  bytesAsRef := fun b => b

/-- The impl of Stor T for Ref with lifetime lt, for every T with Clone and
Debug that outlives lt: borrowed slice, str and byte slice, each modelled by
the content of the memory it points at, viewing as itself. -/
def Ref.stor (_lt : Type) (T : Type) [Clone T] [Debug T] : Stor T where
  ListT := List T
  StringT := String
  BytesT := List Byte
  listAsRef := fun l => l
  stringAsRef := fun s => s
  bytesAsRef := fun b => b

/-- The impl of Stor T for Const N, for every T with Clone and Debug: inline
arrays of exactly N elements and N bytes, and a static str reference. -/
def Const.stor (N : Nat) (T : Type) [Clone T] [Debug T] : Stor T where
  ListT := RustArray T N
  StringT := String
  BytesT := RustArray Byte N
  listAsRef := fun l => l.1
  stringAsRef := fun s => s
  bytesAsRef := fun b => b.1

/-- The impl of Stor T for Heapless N, for every T with Clone and Debug:
bounded heapless vectors and a bounded heapless string of capacity N. -/
def Heapless.stor (N : Nat) (T : Type) [Clone T] [Debug T] : Stor T where
  ListT := HeaplessVec T N
  StringT := HeaplessString N
  BytesT := HeaplessVec Byte N
  listAsRef := fun l => l.1
  stringAsRef := fun s => s.1
  bytesAsRef := fun b => b.1

/-- Building an Owned list value (a Vec) from its elements. -/
def Owned.mkList (T : Type) [Clone T] [Debug T] (l : List T) :
    (Owned.stor T).ListT := l

/-- Building an Owned bytes value (a Vec of u8) from its bytes. -/
def Owned.mkBytes (T : Type) [Clone T] [Debug T] (b : List Byte) :
    (Owned.stor T).BytesT := b

/-- Borrowing a Ref list view from a source slice. -/
def Ref.mkList (lt T : Type) [Clone T] [Debug T] (src : List T) :
    (Ref.stor lt T).ListT := src

/-- Borrowing a Ref string view from a source str. -/
def Ref.mkStr (lt T : Type) [Clone T] [Debug T] (src : String) :
    (Ref.stor lt T).StringT := src

/-- Borrowing a Ref bytes view from a source byte slice. -/
def Ref.mkBytes (lt T : Type) [Clone T] [Debug T] (src : List Byte) :
    (Ref.stor lt T).BytesT := src

/-- Building a Const list value (an inline array) from exactly N elements. -/
def Const.mkList (N : Nat) (T : Type) [Clone T] [Debug T] (l : List T)
    (h : l.length = N) : (Const.stor N T).ListT := ⟨l, h⟩

/-- Building a Const bytes value (an inline byte array) from exactly N
bytes. -/
def Const.mkBytes (N : Nat) (T : Type) [Clone T] [Debug T] (b : List Byte)
    (h : b.length = N) : (Const.stor N T).BytesT := ⟨b, h⟩

/-- Building a Heapless list value from at most N elements. -/
def Heapless.mkList (N : Nat) (T : Type) [Clone T] [Debug T] (l : List T)
    (h : l.length ≤ N) : (Heapless.stor N T).ListT := ⟨l, h⟩

/-- The Rust lifetimes appearing in the source: the impl lifetime a and the
static lifetime. -/
inductive Lifetime
  | a
  | staticLt
  deriving DecidableEq

/-- Syntax of the Rust type expressions used as associated types in the
source, with param standing for the element type parameter T. -/
inductive RustTy
  | param
  | unitTy
  | u8
  | vec (elem : RustTy)
  | allocString
  | ref (lt : Lifetime) (pointee : RustTy)
  | slice (elem : RustTy)
  | str
  | array (elem : RustTy) (n : Nat)
  | heaplessVec (elem : RustTy) (n : Nat)
  | heaplessString (n : Nat)
  deriving DecidableEq

/-- Bounds appearing on type parameters in the source. -/
inductive Bound
  | clone
  | debug
  | outlivesA
  deriving DecidableEq

/-- The bound on Inner in the trait declaration of Stor: Debug only. -/
def Stor.innerBounds : List Bound := [Bound.debug]

/-- The default for Inner in the trait declaration of Stor: the unit type. -/
def Stor.innerDefault : RustTy := RustTy.unitTy

/-- Bounds on T in the impl of Stor T for Owned: Clone and Debug. -/
def Owned.implBounds : List Bound := [Bound.clone, Bound.debug]

/-- Bounds on T in the impl of Stor T for Ref: Clone, Debug and outliving
the lifetime a. -/
def Ref.implBounds : List Bound := [Bound.clone, Bound.debug, Bound.outlivesA]

/-- Bounds on T in the impl of Stor T for Const N: Clone and Debug. -/
def Const.implBounds : List Bound := [Bound.clone, Bound.debug]

/-- Bounds on T in the impl of Stor T for Heapless N: Clone and Debug. -/
def Heapless.implBounds : List Bound := [Bound.clone, Bound.debug]

/-- Associated type List of the Owned impl, as written in the source. -/
def Owned.listTy : RustTy := RustTy.vec RustTy.param

/-- Associated type String of the Owned impl, as written in the source. -/
def Owned.stringTy : RustTy := RustTy.allocString

/-- Associated type Bytes of the Owned impl, as written in the source. -/
def Owned.bytesTy : RustTy := RustTy.vec RustTy.u8

/-- Associated type List of the Ref impl, as written in the source. -/
def Ref.listTy : RustTy := RustTy.ref Lifetime.a (RustTy.slice RustTy.param)

/-- Associated type String of the Ref impl, as written in the source. -/
def Ref.stringTy : RustTy := RustTy.ref Lifetime.a RustTy.str

/-- Associated type Bytes of the Ref impl, as written in the source. -/
def Ref.bytesTy : RustTy := RustTy.ref Lifetime.a (RustTy.slice RustTy.u8)

/-- Associated type List of the Const N impl, as written in the source. -/
def Const.listTy (N : Nat) : RustTy := RustTy.array RustTy.param N

/-- Associated type String of the Const N impl, as written in the source: a
static str reference, not mentioning N. -/
def Const.stringTy (_N : Nat) : RustTy := RustTy.ref Lifetime.staticLt RustTy.str

/-- Associated type Bytes of the Const N impl, as written in the source. -/
def Const.bytesTy (N : Nat) : RustTy := RustTy.array RustTy.u8 N

/-- Associated type List of the Heapless N impl, as written in the source. -/
def Heapless.listTy (N : Nat) : RustTy := RustTy.heaplessVec RustTy.param N

/-- Associated type String of the Heapless N impl, as written in the
source. -/
def Heapless.stringTy (N : Nat) : RustTy := RustTy.heaplessString N

/-- Associated type Bytes of the Heapless N impl, as written in the
source. -/
def Heapless.bytesTy (N : Nat) : RustTy := RustTy.heaplessVec RustTy.u8 N

/-- The cargo feature flags recognized by the crate, both off by default. -/
structure Features where
  alloc : Bool
  heapless : Bool

/-- The top level items of the source file, for modelling cfg gating. -/
inductive Item
  | storTrait
  | ownedMarker
  | ownedImpl
  | refMarker
  | refImpl
  | constMarker
  | constImpl
  | heaplessMarker
  | heaplessImpl
  deriving DecidableEq

/-- The items that compile under a feature configuration: the Owned marker
and its impl are behind cfg feature alloc, the Heapless marker and its impl
behind cfg feature heapless, and everything else is unconditional. -/
def compiledItems (f : Features) : List Item :=
  [Item.storTrait] ++
  (cond f.alloc [Item.ownedMarker, Item.ownedImpl] []) ++
  [Item.refMarker, Item.refImpl, Item.constMarker, Item.constImpl] ++
  (cond f.heapless [Item.heaplessMarker, Item.heaplessImpl] [])

/-- C1: for every strategy among Owned, Ref, Const N and Heapless M and
every element type T satisfying the bounds, the List associated type is
viewable as a read only slice of T, and the view of a value built from the
constructed elements is exactly those elements, in the same order; the
Heapless conjunct ranges over every list lh of at most M elements,
including bounded vectors that are only partially filled. -/
theorem list_view_is_constructed_elements (T : Type) [Clone T] [Debug T]
    (lt : Type) (N M : Nat) (l lh : List T) (hN : l.length = N)
    (hle : lh.length ≤ M) :
    (Owned.stor T).listAsRef (Owned.mkList T l) = l ∧
    (Ref.stor lt T).listAsRef (Ref.mkList lt T l) = l ∧
    (Const.stor N T).listAsRef (Const.mkList N T l hN) = l ∧
    (Heapless.stor M T).listAsRef (Heapless.mkList M T lh hle) = lh :=
  ⟨rfl, rfl, rfl, rfl⟩

/-- C1 witness: the round trip evaluated at the concrete element list
one, two, three with capacity three, and for Heapless at the two element
list one, two inside capacity three, a partially filled bounded vector. -/
theorem list_view_is_constructed_elements_witness :
    (Owned.stor Nat).listAsRef (Owned.mkList Nat [1, 2, 3]) = [1, 2, 3] ∧
    (Ref.stor Unit Nat).listAsRef (Ref.mkList Unit Nat [1, 2, 3]) = [1, 2, 3] ∧
    (Const.stor 3 Nat).listAsRef (Const.mkList 3 Nat [1, 2, 3] (by decide)) = [1, 2, 3] ∧
    (Heapless.stor 3 Nat).listAsRef (Heapless.mkList 3 Nat [1, 2] (by decide)) = [1, 2] :=
  list_view_is_constructed_elements Nat Unit 3 3 [1, 2, 3] [1, 2] (by decide) (by decide)

/-- C2: every value of the Const N List type and of the Const N Bytes type
has length exactly N, and the array type expressions at different lengths
are distinct types. -/
theorem const_list_bytes_exact_length (N : Nat) (T : Type) [Clone T] [Debug T] :
    (∀ v : (Const.stor N T).ListT, ((Const.stor N T).listAsRef v).length = N) ∧
    (∀ b : (Const.stor N T).BytesT, ((Const.stor N T).bytesAsRef b).length = N) ∧
    (∀ M : Nat, Const.listTy N = Const.listTy M → N = M) ∧
    (∀ M : Nat, Const.bytesTy N = Const.bytesTy M → N = M) := by
  refine ⟨fun v => v.2, fun b => b.2, fun M h => ?_, fun M h => ?_⟩
  · simpa [Const.listTy, RustTy.array.injEq] using h
  · simpa [Const.bytesTy, RustTy.array.injEq] using h

/-- C2 witness: evaluated at capacity three, a concrete three element array
and the type equation at length three. -/
theorem const_list_bytes_exact_length_witness :
    ((Const.stor 3 Nat).listAsRef (Const.mkList 3 Nat [7, 8, 9] (by decide))).length = 3 ∧
    (3 : Nat) = 3 :=
  ⟨(const_list_bytes_exact_length 3 Nat).1 (Const.mkList 3 Nat [7, 8, 9] (by decide)),
   (const_list_bytes_exact_length 3 Nat).2.2.1 3 rfl⟩

/-- C3: a Ref view equals the content of the source it was borrowed from,
for the list, string and bytes shapes; the borrowed view is modelled as the
content of the source itself, so no copy is made and the two cannot
diverge within the borrow scope. -/
theorem ref_view_equals_source (lt T : Type) [Clone T] [Debug T]
    (srcList : List T) (srcStr : String) (srcBytes : List Byte) :
    (Ref.stor lt T).listAsRef (Ref.mkList lt T srcList) = srcList ∧
    (Ref.stor lt T).stringAsRef (Ref.mkStr lt T srcStr) = srcStr ∧
    (Ref.stor lt T).bytesAsRef (Ref.mkBytes lt T srcBytes) = srcBytes :=
  ⟨rfl, rfl, rfl⟩

/-- C4: the byte sequence aa bb cc stored through Owned, Ref and Const 3
reads back as the same byte sequence under all three strategies. -/
theorem bytes_uniform_across_strategies :
    (Owned.stor Unit).bytesAsRef (Owned.mkBytes Unit [0xaa, 0xbb, 0xcc]) = [0xaa, 0xbb, 0xcc] ∧
    (Ref.stor Unit Unit).bytesAsRef (Ref.mkBytes Unit Unit [0xaa, 0xbb, 0xcc]) = [0xaa, 0xbb, 0xcc] ∧
    (Const.stor 3 Unit).bytesAsRef (Const.mkBytes 3 Unit [0xaa, 0xbb, 0xcc] rfl) = [0xaa, 0xbb, 0xcc] :=
  ⟨rfl, rfl, rfl⟩

/-- C5 counterexample: the trait declaration itself bounds Inner only by
Debug; Clone is not among the bounds the Stor trait places on Inner. -/
theorem stor_inner_clone_not_required : Bound.clone ∉ Stor.innerBounds := by
  decide

/-- C5 amended: the contract bounds Inner by Debug, with Inner defaulting to
the unit type; the Clone requirement on the element type is imposed by each
strategy impl rather than by the trait itself. -/
theorem stor_inner_bounds_debug_default_unit :
    Stor.innerBounds = [Bound.debug] ∧
    Stor.innerDefault = RustTy.unitTy ∧
    Bound.clone ∈ Owned.implBounds ∧
    Bound.clone ∈ Ref.implBounds ∧
    Bound.clone ∈ Const.implBounds ∧
    Bound.clone ∈ Heapless.implBounds := by
  decide

/-- C6: the Const String associated type is the static str reference and is
the same for every capacity, while the List and Bytes associated types are
arrays sized by N and differ between distinct capacities. -/
theorem const_string_independent_of_capacity (T : Type) [Clone T] [Debug T]
    (N M : Nat) (hNM : N ≠ M) :
    Const.stringTy N = Const.stringTy M ∧
    Const.stringTy N = RustTy.ref Lifetime.staticLt RustTy.str ∧
    (Const.stor N T).StringT = (Const.stor M T).StringT ∧
    Const.listTy N ≠ Const.listTy M ∧
    Const.bytesTy N ≠ Const.bytesTy M := by
  refine ⟨rfl, rfl, rfl, fun h => hNM ?_, fun h => hNM ?_⟩
  · simpa [Const.listTy, RustTy.array.injEq] using h
  · simpa [Const.bytesTy, RustTy.array.injEq] using h

/-- C6 witness: evaluated at the concrete capacities two and three. -/
theorem const_string_independent_of_capacity_witness :
    Const.stringTy 2 = Const.stringTy 3 ∧
    Const.stringTy 2 = RustTy.ref Lifetime.staticLt RustTy.str ∧
    (Const.stor 2 Nat).StringT = (Const.stor 3 Nat).StringT ∧
    Const.listTy 2 ≠ Const.listTy 3 ∧
    Const.bytesTy 2 ≠ Const.bytesTy 3 :=
  const_string_independent_of_capacity Nat 2 3 (by decide)

/-- C7: the Owned marker and its Stor impl are compiled exactly when the
alloc feature is enabled; with alloc disabled both are absent from the
crate, so any use of Owned is a build failure rather than a runtime one. -/
theorem owned_gated_by_alloc_feature (f : Features) :
    (Item.ownedMarker ∈ compiledItems f ↔ f.alloc = true) ∧
    (Item.ownedImpl ∈ compiledItems f ↔ f.alloc = true) := by
  obtain ⟨a, h⟩ := f
  cases a <;> cases h <;> decide

/-- C8: for Heapless N, every list value views as at most N elements, every
string value as at most N utf8 bytes, and every bytes value as at most N
bytes; the associated types are the inline heapless containers, and the
Heapless impl is compiled exactly under the heapless feature. -/
theorem heapless_bounded_by_capacity (N : Nat) (T : Type) [Clone T] [Debug T]
    (f : Features) :
    (∀ v : (Heapless.stor N T).ListT, ((Heapless.stor N T).listAsRef v).length ≤ N) ∧
    (∀ s : (Heapless.stor N T).StringT, ((Heapless.stor N T).stringAsRef s).utf8ByteSize ≤ N) ∧
    (∀ b : (Heapless.stor N T).BytesT, ((Heapless.stor N T).bytesAsRef b).length ≤ N) ∧
    Heapless.listTy N = RustTy.heaplessVec RustTy.param N ∧
    Heapless.stringTy N = RustTy.heaplessString N ∧
    Heapless.bytesTy N = RustTy.heaplessVec RustTy.u8 N ∧
    (Item.heaplessImpl ∈ compiledItems f ↔ f.heapless = true) := by
  obtain ⟨a, h⟩ := f
  refine ⟨fun v => v.2, fun s => s.2, fun b => b.2, rfl, rfl, rfl, ?_⟩
  cases a <;> cases h <;> decide

/-- C9: each strategy marker carries no runtime data: any two values of
Owned, of Ref lt, of Const N or of Heapless N are equal, and the Ref marker
holds only a phantom lifetime, PhantomData itself being data free. -/
theorem markers_carry_no_data (lt : Type) (N M : Nat) :
    (∀ x y : Owned, x = y) ∧
    (∀ x y : Ref lt, x = y) ∧
    (∀ x y : Const N, x = y) ∧
    (∀ x y : Heapless M, x = y) ∧
    (∀ p q : PhantomData lt, p = q) := by
  refine ⟨?_, ?_, ?_, ?_, ?_⟩
  · intro x y; cases x; cases y; rfl
  · intro x y; obtain ⟨⟨⟩⟩ := x; obtain ⟨⟨⟩⟩ := y; rfl
  · intro x y; cases x; cases y; rfl
  · intro x y; cases x; cases y; rfl
  · intro p q; cases p; cases q; rfl

/-- C10: each marker realizes the contract by one implementation universally
quantified over the element type: the impl bounds are Clone and Debug (plus
the lifetime bound for Ref), and the realization is defined uniformly for
every such T, with no per type restriction. -/
theorem impls_universal_over_element_type :
    Owned.implBounds = [Bound.clone, Bound.debug] ∧
    Ref.implBounds = [Bound.clone, Bound.debug, Bound.outlivesA] ∧
    Const.implBounds = [Bound.clone, Bound.debug] ∧
    Heapless.implBounds = [Bound.clone, Bound.debug] ∧
    (∀ (T : Type) (c : Clone T) (d : Debug T) (lt : Type) (N : Nat),
      (@Owned.stor T c d).ListT = Vec T ∧
      (@Ref.stor lt T c d).ListT = List T ∧
      (@Const.stor N T c d).ListT = RustArray T N ∧
      (@Heapless.stor N T c d).ListT = HeaplessVec T N) :=
  ⟨rfl, rfl, rfl, rfl, fun _ _ _ _ _ => ⟨rfl, rfl, rfl, rfl⟩⟩
